import Mathlib

/-!
Verification of the MessageItem chat-bubble component and the
useNativeBehavior gesture hook.

The component keeps seven pieces of local UI state (React useState hooks)
and mutates them from a small set of event handlers.  Each handler is
embedded as a pure function on a `State` record; browser side effects
(calling the deletion callback, alert, console.error, clipboard writes)
are collected in an `Effect` list.  The async `handleDelete` is embedded
as a function returning `Except`, so that the possibility of the promise
rejecting to the caller is expressible and its absence provable.
-/

namespace MessageItem

/-- Popup menu position relative to the message bubble
(the menuPosition useState, values bottom and top). -/
inductive MenuPos where
  | top
  | bottom
deriving DecidableEq

/-- The local UI state of the component: one field per useState hook,
with the initial values given in the source. -/
structure State where
  showMenu : Bool
  isPlaying : Bool
  isDeleting : Bool
  showDeleteOptions : Bool
  isMediaLoading : Bool
  showFullImage : Bool
  menuPosition : MenuPos
deriving DecidableEq

/-- The initial state of the hooks: all flags false except
isMediaLoading, which starts true; menuPosition starts at bottom. -/
def initState : State :=
  { showMenu := false
    isPlaying := false
    isDeleting := false
    showDeleteOptions := false
    isMediaLoading := true
    showFullImage := false
    menuPosition := MenuPos.bottom }

/-- Browser side effects performed by the handlers. -/
inductive Effect where
  | callOnDelete (messageId : String) (deleteForEveryone : Bool)
  | consoleError
  | alert (msg : String)
  | clipboardWrite (text : String)
deriving DecidableEq

/-- True exactly on the effect of invoking the caller-supplied onDelete
callback. -/
def Effect.isCallOnDelete : Effect → Bool
  | Effect.callOnDelete _ _ => true
  | _ => false

/-- calculateMenuPosition: when messageRef.current is null (modelled by
none) it returns without changing state; otherwise it compares the space
below the message (window.innerHeight minus the bounding rectangle
bottom) against 200 and sets menuPosition accordingly.  Coordinates are
rationals, standing in for the JS numbers of getBoundingClientRect. -/
def calculateMenuPosition (messageRectBottom : Option ℚ)
    (windowInnerHeight : ℚ) (s : State) : State :=
  match messageRectBottom with
  | none => s
  | some bottom =>
      let spaceBelow := windowInnerHeight - bottom
      { s with menuPosition :=
          if spaceBelow < 200 then MenuPos.top else MenuPos.bottom }

/-- handleMessageClick: when the delete-options menu is not open, it
recomputes the menu position and toggles showMenu; otherwise it does
nothing. -/
def handleMessageClick (messageRectBottom : Option ℚ)
    (windowInnerHeight : ℚ) (s : State) : State :=
  if !s.showDeleteOptions then
    let s1 := calculateMenuPosition messageRectBottom windowInnerHeight s
    { s1 with showMenu := !s.showMenu }
  else s

/-- handleCopy: writes the message text to the clipboard and closes the
menu. -/
def handleCopy (text : String) (s : State) : State × List Effect :=
  ({ s with showMenu := false }, [Effect.clipboardWrite text])

/-- handleShare: on success of the share (or clipboard fallback) closes
the menu; a rejection is caught and only logged, leaving state alone.
shareSucceeded abstracts whether the awaited navigator call resolved. -/
def handleShare (shareSucceeded : Bool) (s : State) : State :=
  if shareSucceeded then { s with showMenu := false } else s

/-- Fallback alert text used when the rejection carries no usable
message (the string literal from the source, with the apostrophe
escaped). -/
def fallbackDeleteErrorMsg : String :=
  "Errore durante l\x27eliminazione del messaggio"

/-- JS evaluation of the expression (error.message || fallback): none
models a rejection value without a message property, and the empty
string is falsy, so both fall through to the fallback text. -/
def alertText (msg : Option String) : String :=
  match msg with
  | none => fallbackDeleteErrorMsg
  | some m => if m = "" then fallbackDeleteErrorMsg else m

/-- The settlement of the awaited onDelete promise: ok, or rejected
carrying an optional error message. -/
abbrev DeleteResult := Except (Option String) Unit

/-- The state of the component while handleDelete is awaiting onDelete:
none when onDelete is undefined (the handler returned before the await),
otherwise the prior state with isDeleting set true (the setIsDeleting
call made just before the await). -/
def handleDeleteAwaiting (hasOnDelete : Bool) (s : State) : Option State :=
  if !hasOnDelete then none else some { s with isDeleting := true }

/-- handleDelete: if onDelete is undefined it returns at once.  Otherwise
it sets isDeleting, awaits onDelete(id, deleteForEveryone); on success it
closes both menus, on rejection it logs and alerts (error.message or the
fallback); the finally clause resets isDeleting.  The Except return type
is the translation of the async function body: a result of Except.error
would be a rejection propagated to the caller. -/
def handleDelete (hasOnDelete : Bool) (messageId : String)
    (deleteForEveryone : Bool) (result : DeleteResult) (s : State) :
    Except (Option String) (State × List Effect) :=
  match handleDeleteAwaiting hasOnDelete s with
  | none => Except.ok (s, [])
  | some s1 =>
      let afterTryCatch : State × List Effect :=
        match result with
        | Except.ok _ =>
            ({ s1 with showDeleteOptions := false, showMenu := false },
             [Effect.callOnDelete messageId deleteForEveryone])
        | Except.error msg =>
            (s1, [Effect.callOnDelete messageId deleteForEveryone,
                  Effect.consoleError,
                  Effect.alert (alertText msg)])
      Except.ok ({ afterTryCatch.1 with isDeleting := false },
                 afterTryCatch.2)

/-- The component state after handleDelete settles (handleDelete never
yields Except.error, so the fallback branch is unreachable). -/
def handleDeleteState (hasOnDelete : Bool) (messageId : String)
    (deleteForEveryone : Bool) (result : DeleteResult) (s : State) : State :=
  match handleDelete hasOnDelete messageId deleteForEveryone result s with
  | Except.ok (s2, _) => s2
  | Except.error _ => s

/-- The effects performed by handleDelete. -/
def handleDeleteEffects (hasOnDelete : Bool) (messageId : String)
    (deleteForEveryone : Bool) (result : DeleteResult) (s : State) :
    List Effect :=
  match handleDelete hasOnDelete messageId deleteForEveryone result s with
  | Except.ok (_, effs) => effs
  | Except.error _ => []

/-- toggleAudio: returns early when audioRef.current is null; otherwise
toggles isPlaying (and plays or pauses the element). -/
def toggleAudio (audioAttached : Bool) (s : State) : State :=
  if !audioAttached then s else { s with isPlaying := !s.isPlaying }

/-- The onEnded handler of the audio element. -/
def handleAudioEnded (s : State) : State := { s with isPlaying := false }

/-- handleMediaLoad: the onLoad / onLoadedData handler shared by the
photo, video and audio variants. -/
def handleMediaLoad (s : State) : State := { s with isMediaLoading := false }

/-- The overlay button on the photo variant that opens the full image. -/
def handleOpenFullImage (s : State) : State := { s with showFullImage := true }

/-- The onClick of the Elimina entry of the context menu: opens the
delete-options menu and closes the context menu. -/
def handleEliminaClick (s : State) : State :=
  { s with showDeleteOptions := true, showMenu := false }

/-- The document-level click listener.  For each ref, none models a null
current (the JS && short-circuits to a falsy value, so that side counts
as not outside); some c models an attached element where c says whether
it contains the click target.  Both menus close only when the click is
outside both the message element and the menu element. -/
def handleClickOutside (messageEl menuEl : Option Bool) (s : State) : State :=
  if s.showMenu || s.showDeleteOptions then
    let isClickOutsideMessage :=
      match messageEl with
      | some c => !c
      | none => false
    let isClickOutsideMenu :=
      match menuEl with
      | some c => !c
      | none => false
    if isClickOutsideMessage && isClickOutsideMenu then
      { s with showMenu := false, showDeleteOptions := false }
    else s
  else s

/-- Every event handler of the component, with the parameters of its
environment (ref attachment, viewport geometry, promise settlement). -/
inductive Event where
  | messageClick (messageRectBottom : Option ℚ) (windowInnerHeight : ℚ)
  | copyClick (text : String)
  | shareClick (shareSucceeded : Bool)
  | eliminaClick
  | deleteClick (hasOnDelete : Bool) (messageId : String)
      (deleteForEveryone : Bool) (result : DeleteResult)
  | audioToggle (audioAttached : Bool)
  | audioEnded
  | mediaLoad
  | openFullImage
  | outsideClick (messageEl : Option Bool) (menuEl : Option Bool)

/-- The state transition of the component: one case per event handler. -/
def step (e : Event) (s : State) : State :=
  match e with
  | Event.messageClick rect h => handleMessageClick rect h s
  | Event.copyClick t => (handleCopy t s).1
  | Event.shareClick ok => handleShare ok s
  | Event.eliminaClick => handleEliminaClick s
  | Event.deleteClick hd mid flag r => handleDeleteState hd mid flag r s
  | Event.audioToggle att => toggleAudio att s
  | Event.audioEnded => handleAudioEnded s
  | Event.mediaLoad => handleMediaLoad s
  | Event.openFullImage => handleOpenFullImage s
  | Event.outsideClick a b => handleClickOutside a b s

/-- Which delete action a button of the delete-options menu triggers. -/
inductive DeleteBtnKind where
  | eliminaPerMe
  | eliminaPerTutti
deriving DecidableEq

/-- A rendered button of the delete-options menu: the handler it is
wired to, its visible label, and its disabled attribute. -/
structure DeleteBtn where
  kind : DeleteBtnKind
  label : String
  disabled : Bool
deriving DecidableEq

/-- canDeleteForEveryone, line 145 of the source (the optional isAdmin
and isGroupCreator props default to false, matching JS falsiness of
undefined). -/
def canDeleteForEveryone (isMe isAdmin isGroupCreator : Bool) : Bool :=
  isMe || isAdmin || isGroupCreator

/-- The buttons of the delete-options menu as rendered: nothing unless
showDeleteOptions; always the Elimina-per-me button; the
Elimina-per-tutti button exactly under canDeleteForEveryone.  Both
branches of the component (isMe and not) render this menu identically. -/
def deleteOptionsButtons (isMe isAdmin isGroupCreator : Bool) (s : State) :
    List DeleteBtn :=
  if s.showDeleteOptions then
    { kind := DeleteBtnKind.eliminaPerMe
      label := if s.isDeleting then "Eliminazione..." else "Elimina per me"
      disabled := s.isDeleting } ::
    (if canDeleteForEveryone isMe isAdmin isGroupCreator then
      [{ kind := DeleteBtnKind.eliminaPerTutti
         label := if s.isDeleting then "Eliminazione..." else "Elimina per tutti"
         disabled := s.isDeleting }]
    else [])
  else []

/-- At most one of the two menus is open. -/
def menuInvariant (s : State) : Prop :=
  ¬ (s.showMenu = true ∧ s.showDeleteOptions = true)

instance (s : State) : Decidable (menuInvariant s) := by
  unfold menuInvariant; infer_instance

end MessageItem

namespace NativeBehavior

/-- One touch point of a TouchEvent. -/
structure Touch where
  identifier : Nat
deriving DecidableEq

/-- A touchstart event: its list of active touch points. -/
structure TouchEvent where
  touches : List Touch
deriving DecidableEq

/-- handleGesture of useNativeBehavior: returns whether preventDefault
was called on the event. -/
def handleGesture (e : TouchEvent) : Bool :=
  if e.touches.length > 1 then true else false

/-- Listener registrations performed against document. -/
inductive ListenerOp where
  | addListener (event : String)
  | removeListener (event : String)
deriving DecidableEq

/-- The effect of the useEffect body on mount: register handleGesture
for touchstart (with passive false). -/
def useNativeBehaviorMount : List ListenerOp :=
  [ListenerOp.addListener "touchstart"]

/-- The effect of the useEffect cleanup: remove the same handler. -/
def useNativeBehaviorCleanup : List ListenerOp :=
  [ListenerOp.removeListener "touchstart"]

end NativeBehavior

namespace MessageItem

/-- C1: for every rejection of the caller-supplied onDelete callback,
handleDelete catches the error and surfaces it via a browser alert
showing the error message, falling back to the fixed Italian text when
the message is absent (none, or the empty message of a bare Error), and
the handler settles normally: the result is Except.ok, never a
propagated rejection. -/
theorem handleDelete_rejection_alerts_never_propagates
    (messageId : String) (deleteForEveryone : Bool) (msg : Option String)
    (s : State) :
    handleDelete true messageId deleteForEveryone (Except.error msg) s =
      Except.ok ({ s with isDeleting := false },
        [Effect.callOnDelete messageId deleteForEveryone,
         Effect.consoleError,
         Effect.alert (alertText msg)]) ∧
    (msg = none → alertText msg = fallbackDeleteErrorMsg) ∧
    (∀ m : String, msg = some m → m ≠ "" → alertText msg = m) := by
  refine ⟨rfl, ?_, ?_⟩
  · intro h; subst h; rfl
  · intro m hm hne; subst hm; simp [alertText, hne]

/-- Witness for C1 at a concrete rejection carrying the message boom. -/
theorem handleDelete_rejection_witness : alertText (some "boom") = "boom" :=
  (handleDelete_rejection_alerts_never_propagates "m1" true (some "boom")
    initState).2.2 "boom" rfl (by decide)

/-- C2: with an attached message element, calculateMenuPosition sets the
position to top exactly when the space below the message
(window.innerHeight minus the rectangle bottom) is less than 200, and to
bottom otherwise. -/
theorem calculateMenuPosition_two_comparisons
    (bottom windowInnerHeight : ℚ) (s : State) :
    ((calculateMenuPosition (some bottom) windowInnerHeight s).menuPosition
        = MenuPos.top ↔ windowInnerHeight - bottom < 200) ∧
    ((calculateMenuPosition (some bottom) windowInnerHeight s).menuPosition
        = MenuPos.bottom ↔ ¬ windowInnerHeight - bottom < 200) := by
  unfold calculateMenuPosition
  by_cases h : windowInnerHeight - bottom < 200 <;> simp [h]

/-- Witness for C2: bottom 700 in an 800-high viewport leaves 100 below,
so the menu goes on top. -/
theorem calculateMenuPosition_witness :
    (calculateMenuPosition (some 700) 800 initState).menuPosition
      = MenuPos.top :=
  (calculateMenuPosition_two_comparisons 700 800 initState).1.mpr
    (by norm_num)

/-- C3: when an onDelete callback is provided, handleDelete invokes it
exactly once, with exactly the message id it received as a property and
the deleteForEveryone flag, whatever the settlement of the promise. -/
theorem handleDelete_passthrough
    (messageId : String) (deleteForEveryone : Bool) (result : DeleteResult)
    (s : State) :
    (handleDeleteEffects true messageId deleteForEveryone result s).filter
        Effect.isCallOnDelete
      = [Effect.callOnDelete messageId deleteForEveryone] := by
  cases result <;> rfl

/-- C4: every delete-options button is rendered with disabled equal to
isDeleting; isDeleting is true in the state that holds while onDelete is
being awaited; and once handleDelete settles isDeleting is false. -/
theorem deleting_disables_buttons :
    (∀ (isMe isAdmin isGroupCreator : Bool) (s : State) (b : DeleteBtn),
        b ∈ deleteOptionsButtons isMe isAdmin isGroupCreator s →
        b.disabled = s.isDeleting) ∧
    (∀ (s s1 : State), handleDeleteAwaiting true s = some s1 →
        s1.isDeleting = true) ∧
    (∀ (messageId : String) (deleteForEveryone : Bool)
        (result : DeleteResult) (s : State),
        (handleDeleteState true messageId deleteForEveryone result s).isDeleting
          = false) := by
  refine ⟨?_, ?_, ?_⟩
  · intro isMe isAdmin isGroupCreator s b hb
    unfold deleteOptionsButtons at hb
    split at hb
    · cases hb with
      | head => rfl
      | tail _ hb2 =>
        split at hb2
        · cases hb2 with
          | head => rfl
          | tail _ hb3 => cases hb3
        · cases hb2
    · cases hb
  · intro s s1 h
    unfold handleDeleteAwaiting at h
    simp at h
    rw [← h]
  · intro messageId deleteForEveryone result s
    cases result <;> rfl

/-- Witness for C4: the Elimina-per-me button rendered with the menu
open and no deletion in flight is enabled, isDeleting is true during a
concrete await, and false after a concrete settlement. -/
theorem deleting_disables_buttons_witness :
    (({ kind := DeleteBtnKind.eliminaPerMe, label := "Elimina per me",
        disabled := false } : DeleteBtn).disabled
      = ({ initState with showDeleteOptions := true } : State).isDeleting) ∧
    ({ initState with isDeleting := true } : State).isDeleting = true :=
  ⟨deleting_disables_buttons.1 false false false
      { initState with showDeleteOptions := true }
      { kind := DeleteBtnKind.eliminaPerMe, label := "Elimina per me",
        disabled := false } (by decide),
   deleting_disables_buttons.2.1 initState
      { initState with isDeleting := true } rfl⟩

/-- C5: while a menu is open, a click outside both the message element
and the menu element closes both menus, and a click inside either
element leaves both flags unchanged. -/
theorem clickOutside_closes_menus
    (mc nc : Bool) (s : State)
    (hopen : (s.showMenu || s.showDeleteOptions) = true) :
    (mc = false → nc = false →
      (handleClickOutside (some mc) (some nc) s).showMenu = false ∧
      (handleClickOutside (some mc) (some nc) s).showDeleteOptions = false) ∧
    ((mc || nc) = true →
      handleClickOutside (some mc) (some nc) s = s) := by
  unfold handleClickOutside
  rw [hopen]
  cases mc <;> cases nc <;> simp

/-- Witness for C5: with the context menu open, a click contained in
neither element closes it. -/
theorem clickOutside_witness :
    (handleClickOutside (some false) (some false)
      { initState with showMenu := true }).showMenu = false :=
  ((clickOutside_closes_menus false false
      { initState with showMenu := true } (by decide)).1 rfl rfl).1

/-- Helper: settling handleDelete never changes isMediaLoading. -/
theorem handleDeleteState_isMediaLoading (hasOnDelete : Bool)
    (messageId : String) (deleteForEveryone : Bool) (result : DeleteResult)
    (s : State) :
    (handleDeleteState hasOnDelete messageId deleteForEveryone result s).isMediaLoading
      = s.isMediaLoading := by
  cases hasOnDelete <;> cases result <;> rfl

/-- Helper: settling handleDelete either leaves both menu flags at their
prior values or sets both to false. -/
theorem handleDeleteState_menuFlags (hasOnDelete : Bool)
    (messageId : String) (deleteForEveryone : Bool) (result : DeleteResult)
    (s : State) :
    ((handleDeleteState hasOnDelete messageId deleteForEveryone result s).showMenu
        = s.showMenu ∧
     (handleDeleteState hasOnDelete messageId deleteForEveryone result s).showDeleteOptions
        = s.showDeleteOptions) ∨
    ((handleDeleteState hasOnDelete messageId deleteForEveryone result s).showMenu
        = false ∧
     (handleDeleteState hasOnDelete messageId deleteForEveryone result s).showDeleteOptions
        = false) := by
  cases hasOnDelete <;> cases result
  · exact Or.inl ⟨rfl, rfl⟩
  · exact Or.inl ⟨rfl, rfl⟩
  · exact Or.inl ⟨rfl, rfl⟩
  · exact Or.inr ⟨rfl, rfl⟩

/-- C7: isMediaLoading starts true, the shared media load handler sets
it false, and no other event handler changes it, so once media has
loaded the loading indicator never reappears. -/
theorem isMediaLoading_single_swap :
    initState.isMediaLoading = true ∧
    (∀ s : State, (step Event.mediaLoad s).isMediaLoading = false) ∧
    (∀ (e : Event) (s : State), s.isMediaLoading = false →
        (step e s).isMediaLoading = false) := by
  refine ⟨rfl, fun s => rfl, ?_⟩
  intro e s h
  cases e
  case deleteClick hd mid flag r =>
    simp only [step]
    rw [handleDeleteState_isMediaLoading]
    exact h
  all_goals
    simp only [step, handleMessageClick, calculateMenuPosition, handleCopy,
      handleShare, handleEliminaClick, toggleAudio, handleAudioEnded,
      handleMediaLoad, handleOpenFullImage, handleClickOutside] <;>
    (repeat' split) <;> simp_all

/-- Witness for C7: once loaded, a copy click leaves the flag false. -/
theorem isMediaLoading_witness :
    (step (Event.copyClick "hi")
      { initState with isMediaLoading := false }).isMediaLoading = false :=
  isMediaLoading_single_swap.2.2 (Event.copyClick "hi")
    { initState with isMediaLoading := false } rfl

/-- C8: with the delete-options menu open, the Elimina-per-tutti button
is rendered exactly when the viewer is the sender, a group admin or the
group creator, and for every other combination the menu offers only
Elimina-per-me. -/
theorem deleteForEveryone_option_iff
    (isMe isAdmin isGroupCreator : Bool) (s : State)
    (hsdo : s.showDeleteOptions = true) :
    (DeleteBtnKind.eliminaPerTutti ∈
        (deleteOptionsButtons isMe isAdmin isGroupCreator s).map DeleteBtn.kind
      ↔ (isMe || isAdmin || isGroupCreator) = true) ∧
    ((isMe || isAdmin || isGroupCreator) = false →
      (deleteOptionsButtons isMe isAdmin isGroupCreator s).map DeleteBtn.kind
        = [DeleteBtnKind.eliminaPerMe]) := by
  unfold deleteOptionsButtons canDeleteForEveryone
  rw [hsdo]
  cases isMe <;> cases isAdmin <;> cases isGroupCreator <;> simp

/-- Witness for C8: a plain group member who is not the sender sees only
Elimina-per-me. -/
theorem deleteForEveryone_option_witness :
    (deleteOptionsButtons false false false
        { initState with showDeleteOptions := true }).map DeleteBtn.kind
      = [DeleteBtnKind.eliminaPerMe] :=
  (deleteForEveryone_option_iff false false false
      { initState with showDeleteOptions := true } rfl).2 rfl

/-- C9: showMenu and showDeleteOptions are never both true: the initial
state satisfies the invariant and every event handler preserves it. -/
theorem menus_mutually_exclusive :
    menuInvariant initState ∧
    (∀ (e : Event) (s : State), menuInvariant s → menuInvariant (step e s)) := by
  refine ⟨by decide, ?_⟩
  intro e s h
  unfold menuInvariant at h ⊢
  cases e
  case deleteClick hd mid flag r =>
    simp only [step]
    rcases handleDeleteState_menuFlags hd mid flag r s with ⟨h1, h2⟩ | ⟨h1, h2⟩
    · rw [h1, h2]; exact h
    · rw [h1, h2]; simp
  all_goals
    (simp only [step, handleMessageClick, calculateMenuPosition, handleCopy,
      handleShare, handleEliminaClick, toggleAudio, handleAudioEnded,
      handleMediaLoad, handleOpenFullImage, handleClickOutside];
     (repeat' split) <;> simp_all)

/-- Witness for C9: opening the context menu from the initial state
keeps the invariant. -/
theorem menus_mutually_exclusive_witness :
    menuInvariant (step (Event.messageClick none 800) initState) :=
  menus_mutually_exclusive.2 (Event.messageClick none 800) initState
    (by decide)

/-- C10: with no onDelete callback, handleDelete leaves the state
unchanged; on a rejection, showDeleteOptions and showMenu keep their
prior values while isDeleting is reset to false; only on a successful
await are both menu flags set to false (isDeleting again false). -/
theorem handleDelete_state_on_each_outcome
    (messageId : String) (deleteForEveryone : Bool) (s : State) :
    (∀ r : DeleteResult,
      handleDeleteState false messageId deleteForEveryone r s = s) ∧
    (∀ msg : Option String,
      (handleDeleteState true messageId deleteForEveryone
          (Except.error msg) s).showDeleteOptions = s.showDeleteOptions ∧
      (handleDeleteState true messageId deleteForEveryone
          (Except.error msg) s).showMenu = s.showMenu ∧
      (handleDeleteState true messageId deleteForEveryone
          (Except.error msg) s).isDeleting = false) ∧
    ((handleDeleteState true messageId deleteForEveryone
        (Except.ok ()) s).showDeleteOptions = false ∧
     (handleDeleteState true messageId deleteForEveryone
        (Except.ok ()) s).showMenu = false ∧
     (handleDeleteState true messageId deleteForEveryone
        (Except.ok ()) s).isDeleting = false) := by
  refine ⟨fun r => by cases r <;> rfl, fun msg => ⟨rfl, rfl, rfl⟩,
    rfl, rfl, rfl⟩

end MessageItem

namespace NativeBehavior

/-- C6: the touchstart handler of useNativeBehavior calls preventDefault
exactly when the event carries more than one touch point, leaves
single-touch events untouched, and the cleanup removes the touchstart
listener the mount added. -/
theorem useNativeBehavior_multitouch_suppression :
    (∀ e : TouchEvent, handleGesture e = true ↔ 1 < e.touches.length) ∧
    (∀ e : TouchEvent, e.touches.length ≤ 1 → handleGesture e = false) ∧
    useNativeBehaviorMount = [ListenerOp.addListener "touchstart"] ∧
    useNativeBehaviorCleanup = [ListenerOp.removeListener "touchstart"] := by
  refine ⟨?_, ?_, rfl, rfl⟩
  · intro e
    unfold handleGesture
    split <;> simp_all
  · intro e h
    unfold handleGesture
    simp [Nat.not_lt.mpr h]

/-- Witness for C6: a single-finger touch is not prevented. -/
theorem useNativeBehavior_witness :
    handleGesture { touches := [{ identifier := 0 }] } = false :=
  useNativeBehavior_multitouch_suppression.2.1
    { touches := [{ identifier := 0 }] } (by decide)

end NativeBehavior
